import Mathlib

/-!
Shallow embedding of the physics/visual synchronization loop of the
phaserjs/template-rapier repository (src/scenes/Game.js).

The scene holds an optional Rapier world (`rapierWorld`, `undefined` until the
asynchronous `create` finishes) and a heap of Phaser game objects (visual
entities).  `Game.update` models `update()`: if the world is initialized it
steps the world once and copies every body's post-step translation/rotation
onto the game object stored in the body's `userData` slot; a falsy `userData`
is skipped.  The physics integrator itself lives in the external Rapier
library, so `World.step` is parameterized by an abstract step function acting
on the engine-internal body states.  JavaScript values that can sit in the
`userData` slot are modelled by `UserData` together with JS truthiness, and a
property write / method call on a truthy non-object is a `TypeError`, modelled
by `Option` (`none` = the loop faults).
-/

namespace RapierTemplate

/-- A 2-vector, as `RAPIER.Vector2` (coordinates modelled as rationals). -/
structure Vec2 where
  x : ℚ
  y : ℚ
deriving DecidableEq, Repr

/-- Rapier rigid body classification used by this scene. -/
inductive BodyType where
  | dynamic
  | fixed
deriving DecidableEq, Repr

/-- A JavaScript value storable in a rigid body's `userData` slot:
the game object reference the scene stores there, or any other JS value
(only its truthiness and identity matter to the loop). -/
inductive UserData where
  | undefined
  | null
  | boolVal (b : Bool)
  | numVal (q : ℚ)
  | strVal (s : String)
  | entityRef (i : Nat)
deriving DecidableEq, Repr

/-- JavaScript truthiness of a `userData` value, as tested by
`if (gameObject)` in `update()`. -/
def jsTruthy : UserData → Bool
  | UserData.undefined => false
  | UserData.null => false
  | UserData.boolVal b => b
  | UserData.numVal q => decide (q ≠ 0)
  | UserData.strVal s => decide (s ≠ "")
  | UserData.entityRef _ => true

/-- A Phaser game object (visual entity): mutable position, rotation and the
other display fields the scene touches (`alpha`, display size, origin, text
content).  Display sizes come from external assets. -/
structure Entity where
  x : ℚ
  y : ℚ
  rotation : ℚ
  alpha : ℚ
  displayWidth : ℚ
  displayHeight : ℚ
  originX : ℚ
  originY : ℚ
  content : String
deriving DecidableEq, Repr

/-- Phaser's `GameObject.setRotation(radians)`. -/
def Entity.setRotation (e : Entity) (radians : ℚ) : Entity :=
  { e with rotation := radians }

/-- Phaser's `GameObject.setAlpha(a)`. -/
def Entity.setAlpha (e : Entity) (a : ℚ) : Entity :=
  { e with alpha := a }

/-- Phaser's `GameObject.setOrigin(o)` (same value on both axes). -/
def Entity.setOrigin (e : Entity) (o : ℚ) : Entity :=
  { e with originX := o, originY := o }

/-- Placeholder entity used as the (never observed) default of out-of-range
heap lookups. -/
def noEntity : Entity :=
  { x := 0, y := 0, rotation := 0, alpha := 1, displayWidth := 0,
    displayHeight := 0, originX := 1/2, originY := 1/2, content := "" }

/-- Engine-internal state of a rigid body: classification, translation,
linear velocity, rotation and angular velocity.  `translation()` and
`rotation()` read `pos` and `rot`. -/
structure BodyState where
  btype : BodyType
  pos : Vec2
  vel : Vec2
  rot : ℚ
  angvel : ℚ
deriving DecidableEq, Repr

/-- A Rapier rigid body as seen by this scene: its opaque `userData` slot and
its engine-internal state. -/
structure RigidBody where
  userData : UserData
  state : BodyState
deriving DecidableEq, Repr

/-- Rapier's `RigidBody.translation()`. -/
def RigidBody.translation (b : RigidBody) : Vec2 :=
  b.state.pos

/-- Rapier's `RigidBody.rotation()`. -/
def RigidBody.rotation (b : RigidBody) : ℚ :=
  b.state.rot

/-- A collider attached to a body: cuboid half-extents and restitution,
recorded with the index of its parent body. -/
structure Collider where
  parent : Nat
  halfWidth : ℚ
  halfHeight : ℚ
  restitution : ℚ
deriving DecidableEq, Repr

/-- Rapier's `RigidBodyDesc`: body type, translation and the `userData`
slot, set by the builder methods before `createRigidBody`. -/
structure RigidBodyDesc where
  btype : BodyType
  translation : Vec2 := { x := 0, y := 0 }
  userData : UserData := UserData.undefined
deriving DecidableEq, Repr

/-- `RAPIER.RigidBodyDesc.dynamic()`. -/
def RigidBodyDesc.dynamic : RigidBodyDesc :=
  { btype := BodyType.dynamic }

/-- `RAPIER.RigidBodyDesc.fixed()`. -/
def RigidBodyDesc.fixed : RigidBodyDesc :=
  { btype := BodyType.fixed }

/-- `RigidBodyDesc.setTranslation(x, y)`. -/
def RigidBodyDesc.setTranslation (d : RigidBodyDesc) (x y : ℚ) : RigidBodyDesc :=
  { d with translation := { x := x, y := y } }

/-- `RigidBodyDesc.setUserData(v)`. -/
def RigidBodyDesc.setUserData (d : RigidBodyDesc) (v : UserData) : RigidBodyDesc :=
  { d with userData := v }

/-- Rapier's `ColliderDesc` as used here: cuboid half-extents and
restitution (Rapier default restitution is 0). -/
structure ColliderDesc where
  halfWidth : ℚ
  halfHeight : ℚ
  restitution : ℚ := 0
deriving DecidableEq, Repr

/-- `RAPIER.ColliderDesc.cuboid(hx, hy)`. -/
def ColliderDesc.cuboid (hx hy : ℚ) : ColliderDesc :=
  { halfWidth := hx, halfHeight := hy }

/-- `ColliderDesc.setRestitution(r)`. -/
def ColliderDesc.setRestitution (c : ColliderDesc) (r : ℚ) : ColliderDesc :=
  { c with restitution := r }

/-- The Rapier world: gravity, the enumerable body collection (`world.bodies`,
in creation order) and the colliders. -/
structure World where
  gravity : Vec2
  bodies : List RigidBody := []
  colliders : List Collider := []
deriving DecidableEq, Repr

/-- `world.createRigidBody(desc)`: appends a body built from the descriptor
(at rest, unrotated, with the descriptor's translation and `userData`) and
returns its handle (its index). -/
def World.createRigidBody (w : World) (d : RigidBodyDesc) : World × Nat :=
  ({ w with
      bodies := w.bodies ++
        [{ userData := d.userData,
           state := { btype := d.btype, pos := d.translation,
                      vel := { x := 0, y := 0 }, rot := 0, angvel := 0 } }] },
   w.bodies.length)

/-- `world.createCollider(desc, body)`: attaches a collider to a body. -/
def World.createCollider (w : World) (c : ColliderDesc) (parent : Nat) : World :=
  { w with
      colliders := w.colliders ++
        [{ parent := parent, halfWidth := c.halfWidth,
           halfHeight := c.halfHeight, restitution := c.restitution }] }

/-- The external physics integrator: from gravity, the colliders and the
current body states, the post-step body states.  Rapier's `step()` advances
by one fixed timestep; its numerical content is external to this repository,
so it is kept abstract. -/
abbrev StepFn := Vec2 → List Collider → List BodyState → List BodyState

/-- `world.step()`: replaces every body's engine-internal state by the
post-step state computed by the external integrator.  The `userData` slots
are not part of the engine state and are untouched. -/
def World.step (f : StepFn) (w : World) : World :=
  { w with
      bodies := List.zipWith (fun b st => { b with state := st }) w.bodies
        (f w.gravity w.colliders (w.bodies.map RigidBody.state)) }

/-- The scene's game-object store: the Phaser game objects, indexed by the
`Nat` identity that `UserData.entityRef` points at. -/
abbrev Heap := List Entity

/-- The `Game` scene state: `rapierWorld` (`none` = still `undefined`, the
asynchronous `create` has not assigned it yet) and the game objects. -/
structure GameScene where
  rapierWorld : Option World
  heap : Heap
deriving DecidableEq, Repr

/-- The body of the `forEach` in `update()` for one rigid body:
`const gameObject = rigidBody.userData; if (gameObject) { ... }` — reads the
body's translation and rotation and writes them onto the game object
(`gameObject.x = position.x; gameObject.y = position.y;
gameObject.setRotation(angle)`).  A truthy `userData` that is not a game
object faults (`TypeError`), a falsy one is skipped. -/
def syncBody (heap : Heap) (rigidBody : RigidBody) : Option Heap :=
  let gameObject := rigidBody.userData
  if jsTruthy gameObject then
    match gameObject with
    | UserData.entityRef i =>
        let position := rigidBody.translation
        let angle := rigidBody.rotation
        some (heap.set i
          (Entity.setRotation
            { heap.getD i noEntity with x := position.x, y := position.y }
            angle))
    | _ => none
  else
    some heap

/-- `world.bodies.forEach(...)`: processes the bodies in enumeration order,
threading the game-object store; a fault aborts the loop. -/
def syncAll (heap : Heap) : List RigidBody → Option Heap
  | [] => some heap
  | b :: bs =>
    match syncBody heap b with
    | none => none
    | some heap2 => syncAll heap2 bs

/-- Instrumented variant of `syncAll` that additionally records each body the
`forEach` visits, in order, for the enumeration-count properties. -/
def syncAllLog (heap : Heap) : List RigidBody → List RigidBody × Option Heap
  | [] => ([], some heap)
  | b :: bs =>
    match syncBody heap b with
    | none => ([b], none)
    | some heap2 =>
      let r := syncAllLog heap2 bs
      (b :: r.1, r.2)

/-- `Game.update()`: if `this.rapierWorld !== undefined`, step the physics
world once, then copy every body's post-step transform onto its associated
game object; otherwise do nothing. -/
def Game.update (f : StepFn) (s : GameScene) : Option GameScene :=
  match s.rapierWorld with
  | none => some s
  | some rapierWorld =>
    let stepped := World.step f rapierWorld
    (syncAll s.heap stepped.bodies).map fun heap =>
      { rapierWorld := some stepped, heap := heap }

/-- Iterated frame updates: `n` successive calls to `Game.update`. -/
def ticks (f : StepFn) : Nat → GameScene → Option GameScene
  | 0, s => some s
  | n + 1, s => (Game.update f s).bind (ticks f n)

/-- `this.add.image(x, y, key)`: a fresh image game object at `(x, y)` with
the asset's display size (display sizes are external asset data; the sizes
used below are the ones the spec's P5 scenario states). -/
def addImage (x y w h : ℚ) : Entity :=
  { x := x, y := y, rotation := 0, alpha := 1, displayWidth := w,
    displayHeight := h, originX := 1/2, originY := 1/2, content := "" }

/-- `this.add.text(x, y, content, style)`: a fresh text game object (Phaser
text objects default to origin `(0, 0)`; the scene calls `setOrigin(0.5)`
afterwards).  Its display size is determined externally by the rendered
text; the size used below is the one the spec's P5 scenario states. -/
def addText (x y w h : ℚ) (content : String) : Entity :=
  { x := x, y := y, rotation := 0, alpha := 1, displayWidth := w,
    displayHeight := h, originX := 0, originY := 0, content := content }

/-- `Game.create()` after `await RAPIER.init()` has resolved: builds the
world with gravity `(0, 9.81)`, the background image, the dynamic logo body
(64×64 cuboid collider, restitution 0.7, `userData` = the logo), and the
fixed text body (200×40 cuboid collider, `userData` = the text).  Game
objects live in the heap at indices 0 (background), 1 (logo), 2 (text). -/
def Game.create : GameScene :=
  let rapierWorld : World := { gravity := { x := 0, y := 981/100 } }
  let background := (addImage 512 384 1024 768).setAlpha (1/2)
  let logo := addImage 512 100 64 64
  let rigidBodyDesc :=
    (RigidBodyDesc.dynamic.setTranslation logo.x logo.y).setUserData
      (UserData.entityRef 1)
  let created := rapierWorld.createRigidBody rigidBodyDesc
  let rapierWorld2 := created.1
  let rigidBody := created.2
  let colliderDesc :=
    (ColliderDesc.cuboid (logo.displayWidth / 2)
      (logo.displayHeight / 2)).setRestitution (7/10)
  let rapierWorld3 := rapierWorld2.createCollider colliderDesc rigidBody
  let text :=
    (addText 512 584 200 40
      "Make something fun!\nand share it with us:\nsupport@phaser.io").setOrigin
      (1/2)
  let rigidBodyDesc2 :=
    (RigidBodyDesc.fixed.setTranslation text.x text.y).setUserData
      (UserData.entityRef 2)
  let created2 := rapierWorld3.createRigidBody rigidBodyDesc2
  let rapierWorld4 := created2.1
  let rigidBody2 := created2.2
  let colliderDesc2 :=
    ColliderDesc.cuboid (text.displayWidth / 2) (text.displayHeight / 2)
  let rapierWorld5 := rapierWorld4.createCollider colliderDesc2 rigidBody2
  { rapierWorld := some rapierWorld5, heap := [background, logo, text] }

/-- Modelled from the spec: Rapier's fixed simulation timestep.  The
integrator is the external Rapier engine, absent from src; Rapier steps by a
fixed `1/60` seconds. -/
def rapierDt : ℚ := 1/60

/-- Modelled from the spec: the external Rapier integrator, specialized to
the free-fall phase of the spec's P5 scenario.  Dynamic bodies take one
fixed-timestep semi-implicit Euler step under world gravity; fixed bodies do
not move.  Collision response — inactive while the two shapes are disjoint —
is not modelled, so results are only used for ticks before first contact. -/
def rapierFreeFall : StepFn := fun g _cols states =>
  states.map fun st =>
    match st.btype with
    | BodyType.fixed => st
    | BodyType.dynamic =>
      let vel : Vec2 := { x := st.vel.x + g.x * rapierDt,
                          y := st.vel.y + g.y * rapierDt }
      { st with vel := vel,
                pos := { x := st.pos.x + vel.x * rapierDt,
                         y := st.pos.y + vel.y * rapierDt } }

/-- Closed form of the logo body's downward velocity after `n` free-fall
steps of `rapierFreeFall` under gravity `9.81`. -/
def fallVel : Nat → ℚ
  | 0 => 0
  | n + 1 => fallVel n + (981/100) * rapierDt

/-- Closed form of the logo body's `y` translation after `n` free-fall steps
of `rapierFreeFall` starting from `y = 100`. -/
def fallY : Nat → ℚ
  | 0 => 100
  | n + 1 => fallY n + (fallVel n + (981/100) * rapierDt) * rapierDt

/-- The dynamic logo body after `n` free-fall steps. -/
def logoBodyAt (n : Nat) : RigidBody :=
  { userData := UserData.entityRef 1,
    state := { btype := BodyType.dynamic, pos := { x := 512, y := fallY n },
               vel := { x := 0, y := fallVel n }, rot := 0, angvel := 0 } }

/-- The fixed text body (it never moves). -/
def textBody : RigidBody :=
  { userData := UserData.entityRef 2,
    state := { btype := BodyType.fixed, pos := { x := 512, y := 584 },
               vel := { x := 0, y := 0 }, rot := 0, angvel := 0 } }

/-- The logo game object's `y` after `n` frame updates of the created scene
(`0` if the run faulted — it never does). -/
def logoYAfter (n : Nat) : ℚ :=
  match ticks rapierFreeFall n Game.create with
  | some s => (s.heap.getD 1 noEntity).y
  | none => 0

/-- The text game object's position after `n` frame updates of the created
scene (`(0, 0)` if the run faulted — it never does). -/
def textPosAfter (n : Nat) : ℚ × ℚ :=
  match ticks rapierFreeFall n Game.create with
  | some s => ((s.heap.getD 2 noEntity).x, (s.heap.getD 2 noEntity).y)
  | none => (0, 0)

/-- The display fields of a game object other than position and rotation:
everything `update()` never writes. -/
def nonTransform (e : Entity) : ℚ × ℚ × ℚ × ℚ × ℚ × String :=
  (e.alpha, e.displayWidth, e.displayHeight, e.originX, e.originY, e.content)

/-- The association slots of all bodies of a scene's world, in enumeration
order (empty when the world is uninitialized). -/
def worldUserData (s : GameScene) : List UserData :=
  match s.rapierWorld with
  | none => []
  | some w => w.bodies.map RigidBody.userData

/-- The transform copy `update()` performs on one game object:
`x`/`y` assignment then `setRotation`. -/
def applyTransform (e : Entity) (st : BodyState) : Entity :=
  Entity.setRotation { e with x := st.pos.x, y := st.pos.y } st.rot

/-- The background image game object as `create()` builds it. -/
def backgroundObj : Entity := (addImage 512 384 1024 768).setAlpha (1/2)

/-- The logo game object as `create()` builds it. -/
def logoObj : Entity := addImage 512 100 64 64

/-- The text game object as `create()` builds it. -/
def textObj : Entity :=
  (addText 512 584 200 40
    "Make something fun!\nand share it with us:\nsupport@phaser.io").setOrigin
    (1/2)

/-- The two colliders `create()` attaches. -/
def createdColliders : List Collider :=
  [{ parent := 0, halfWidth := 32, halfHeight := 32, restitution := 7/10 },
   { parent := 1, halfWidth := 100, halfHeight := 20, restitution := 0 }]

/-- The created world after `n` free-fall steps. -/
def worldAt (n : Nat) : World :=
  { gravity := { x := 0, y := 981/100 },
    bodies := [logoBodyAt n, textBody],
    colliders := createdColliders }

/-- The game-object store after `n` frame updates of the created scene. -/
def heapAt : Nat → Heap
  | 0 => [backgroundObj, logoObj, textObj]
  | n + 1 =>
    [backgroundObj,
     applyTransform logoObj (logoBodyAt (n + 1)).state,
     applyTransform textObj textBody.state]

/-- The created scene after `n` frame updates. -/
def sceneAt (n : Nat) : GameScene :=
  { rapierWorld := some (worldAt n), heap := heapAt n }

/-- A test integrator that leaves every body state unchanged (no gravity,
everything at rest). -/
def idleStep : StepFn := fun _ _ states => states

/-- A fixed test body whose slot references game object 0. -/
def dupBodyA : RigidBody :=
  { userData := UserData.entityRef 0,
    state := { btype := BodyType.fixed, pos := { x := 1, y := 2 },
               vel := { x := 0, y := 0 }, rot := 0, angvel := 0 } }

/-- A second fixed test body whose slot also references game object 0. -/
def dupBodyB : RigidBody :=
  { userData := UserData.entityRef 0,
    state := { btype := BodyType.fixed, pos := { x := 3, y := 4 },
               vel := { x := 0, y := 0 }, rot := 5, angvel := 0 } }

/-- A test world in which two distinct bodies share one game object. -/
def dupWorld : World :=
  { gravity := { x := 0, y := 0 }, bodies := [dupBodyA, dupBodyB] }

/-- The scene `Game.update idleStep` produces from `dupWorld` over the
one-object heap `[noEntity]`. -/
def dupResult : GameScene :=
  { rapierWorld := some dupWorld,
    heap := [applyTransform noEntity dupBodyB.state] }

/-! ## Helper lemmas -/

theorem getD_set_self {α : Type} (l : List α) (i : Nat) (a d : α)
    (h : i < l.length) : (l.set i a).getD i d = a := by
  induction l generalizing i with
  | nil => simp at h
  | cons x xs ih =>
    cases i with
    | zero => rfl
    | succ j =>
      simp only [List.set, List.getD, List.get?]
      have := ih j (by simpa using h)
      simpa [List.getD] using this

theorem getD_set_of_ne {α : Type} (l : List α) (i j : Nat) (a d : α)
    (h : i ≠ j) : (l.set i a).getD j d = l.getD j d := by
  induction l generalizing i j with
  | nil => rfl
  | cons x xs ih =>
    cases i with
    | zero =>
      cases j with
      | zero => exact absurd rfl h
      | succ j2 => rfl
    | succ i2 =>
      cases j with
      | zero => rfl
      | succ j2 =>
        have := ih i2 j2 (fun hc => h (by rw [hc]))
        simpa [List.getD] using this

/-- `syncBody` on a body whose slot holds a game object reference. -/
theorem syncBody_ref (hp : Heap) (b : RigidBody) (i : Nat)
    (hud : b.userData = UserData.entityRef i) :
    syncBody hp b =
      some (hp.set i (applyTransform (hp.getD i noEntity) b.state)) := by
  simp [syncBody, hud, jsTruthy, applyTransform, RigidBody.translation,
    RigidBody.rotation]

/-- `syncBody` on a body whose slot holds a falsy value: skipped. -/
theorem syncBody_falsy (hp : Heap) (b : RigidBody)
    (hud : jsTruthy b.userData = false) : syncBody hp b = some hp := by
  simp [syncBody, hud]

/-- Case analysis on a successful `syncBody`. -/
theorem syncBody_some_cases (hp hp2 : Heap) (b : RigidBody)
    (h : syncBody hp b = some hp2) :
    (jsTruthy b.userData = false ∧ hp2 = hp) ∨
    (∃ i, b.userData = UserData.entityRef i ∧
      hp2 = hp.set i (applyTransform (hp.getD i noEntity) b.state)) := by
  cases hud : b.userData with
  | entityRef i =>
    refine Or.inr ⟨i, rfl, ?_⟩
    rw [syncBody_ref hp b i hud] at h
    exact (Option.some_injective _ h).symm
  | undefined =>
    exact Or.inl ⟨by simp [hud, jsTruthy],
      (Option.some_injective _ (by simpa [syncBody, hud, jsTruthy] using h)).symm⟩
  | null =>
    exact Or.inl ⟨by simp [hud, jsTruthy],
      (Option.some_injective _ (by simpa [syncBody, hud, jsTruthy] using h)).symm⟩
  | boolVal v =>
    cases v with
    | false =>
      exact Or.inl ⟨by simp [hud, jsTruthy],
        (Option.some_injective _
          (by simpa [syncBody, hud, jsTruthy] using h)).symm⟩
    | true => simp [syncBody, hud, jsTruthy] at h
  | numVal q =>
    by_cases hq : q = 0
    · exact Or.inl ⟨by simp [hud, jsTruthy, hq],
        (Option.some_injective _
          (by simpa [syncBody, hud, jsTruthy, hq] using h)).symm⟩
    · simp [syncBody, hud, jsTruthy, hq] at h
  | strVal t =>
    by_cases ht : t = ""
    · exact Or.inl ⟨by simp [hud, jsTruthy, ht],
        (Option.some_injective _
          (by simpa [syncBody, hud, jsTruthy, ht] using h)).symm⟩
    · simp [syncBody, hud, jsTruthy, ht] at h

/-- A successful `syncBody` preserves the number of game objects. -/
theorem syncBody_length (hp hp2 : Heap) (b : RigidBody)
    (h : syncBody hp b = some hp2) : hp2.length = hp.length := by
  rcases syncBody_some_cases hp hp2 b h with ⟨_, rfl⟩ | ⟨i, _, rfl⟩
  · rfl
  · simp

/-- `forEach` over an appended body list runs the two halves in order. -/
theorem syncAll_append (hp : Heap) (xs ys : List RigidBody) :
    syncAll hp (xs ++ ys) = (syncAll hp xs).bind (fun h2 => syncAll h2 ys) := by
  induction xs generalizing hp with
  | nil => rfl
  | cons b bs ih =>
    simp only [List.cons_append, syncAll]
    cases syncBody hp b with
    | none => rfl
    | some hp2 => exact ih hp2

/-- A successful `forEach` over an appended list splits into successful
halves. -/
theorem syncAll_append_some (hp hp' : Heap) (xs ys : List RigidBody)
    (h : syncAll hp (xs ++ ys) = some hp') :
    ∃ h1, syncAll hp xs = some h1 ∧ syncAll h1 ys = some hp' := by
  rw [syncAll_append] at h
  cases hxs : syncAll hp xs with
  | none => rw [hxs] at h; exact absurd h (by simp)
  | some h1 => exact ⟨h1, rfl, by rw [hxs] at h; exact h⟩

/-- A successful `forEach` preserves the number of game objects. -/
theorem syncAll_length (bs : List RigidBody) (hp hp' : Heap)
    (h : syncAll hp bs = some hp') : hp'.length = hp.length := by
  induction bs generalizing hp with
  | nil => simp only [syncAll] at h; exact congrArg _ (Option.some_injective _ h).symm
  | cons b rest ih =>
    simp only [syncAll] at h
    cases hb : syncBody hp b with
    | none => rw [hb] at h; exact absurd h (by simp)
    | some hp2 =>
      rw [hb] at h
      exact (ih hp2 h).trans (syncBody_length hp hp2 b hb)

/-- The transform copy leaves all non-transform display fields alone. -/
theorem nonTransform_applyTransform (e : Entity) (st : BodyState) :
    nonTransform (applyTransform e st) = nonTransform e := rfl

/-- The transform copy only reads the non-transform fields of its target. -/
theorem applyTransform_congr (e1 e2 : Entity) (st : BodyState)
    (h : nonTransform e1 = nonTransform e2) :
    applyTransform e1 st = applyTransform e2 st := by
  cases e1
  cases e2
  simp only [nonTransform, Prod.mk.injEq] at h
  obtain ⟨h1, h2, h3, h4, h5, h6⟩ := h
  simp [applyTransform, Entity.setRotation, h1, h2, h3, h4, h5, h6]

/-- `forEach` never changes a game object's non-transform display fields. -/
theorem syncAll_nonTransform (bs : List RigidBody) (hp hp' : Heap)
    (h : syncAll hp bs = some hp') (j : Nat) :
    nonTransform (hp'.getD j noEntity) = nonTransform (hp.getD j noEntity) := by
  induction bs generalizing hp with
  | nil => simp only [syncAll] at h; rw [Option.some_injective _ h]
  | cons b rest ih =>
    simp only [syncAll] at h
    cases hb : syncBody hp b with
    | none => rw [hb] at h; exact absurd h (by simp)
    | some hp2 =>
      rw [hb] at h
      refine (ih hp2 h).trans ?_
      rcases syncBody_some_cases hp hp2 b hb with ⟨_, rfl⟩ | ⟨i, _, rfl⟩
      · rfl
      · by_cases hlt : i < hp.length
        · by_cases hij : i = j
          · subst hij
            rw [getD_set_self hp i _ noEntity hlt, nonTransform_applyTransform]
          · rw [getD_set_of_ne hp i j _ noEntity hij]
        · rw [List.set_eq_of_length_le (Nat.le_of_not_lt hlt)]

/-- A game object referenced by no body in the list is untouched by
`forEach`. -/
theorem syncAll_untouched (bs : List RigidBody) (hp hp' : Heap) (j : Nat)
    (hnone : ∀ b ∈ bs, b.userData ≠ UserData.entityRef j)
    (h : syncAll hp bs = some hp') :
    hp'.getD j noEntity = hp.getD j noEntity := by
  induction bs generalizing hp with
  | nil => simp only [syncAll] at h; rw [Option.some_injective _ h]
  | cons b rest ih =>
    simp only [syncAll] at h
    cases hb : syncBody hp b with
    | none => rw [hb] at h; exact absurd h (by simp)
    | some hp2 =>
      rw [hb] at h
      refine (ih hp2 (fun b2 hm => hnone b2 (List.mem_cons_of_mem b hm)) h).trans ?_
      rcases syncBody_some_cases hp hp2 b hb with ⟨_, rfl⟩ | ⟨i, hui, rfl⟩
      · rfl
      · have hij : i ≠ j := by
          intro hc
          exact hnone b (List.mem_cons_self b rest) (by rw [hui, hc])
        rw [getD_set_of_ne hp i j _ noEntity hij]

/-- After a successful `forEach`, a game object holds the transform of the
last body referencing it. -/
theorem syncAll_getD_last (xs ys : List RigidBody) (b : RigidBody)
    (hp hp' : Heap) (j : Nat)
    (h : syncAll hp (xs ++ b :: ys) = some hp')
    (hud : b.userData = UserData.entityRef j)
    (hj : j < hp.length)
    (hys : ∀ b' ∈ ys, b'.userData ≠ UserData.entityRef j) :
    hp'.getD j noEntity = applyTransform (hp.getD j noEntity) b.state := by
  obtain ⟨h1, hxs, hrest⟩ := syncAll_append_some hp hp' xs (b :: ys) h
  simp only [syncAll] at hrest
  cases hb : syncBody h1 b with
  | none => rw [hb] at hrest; exact absurd hrest (by simp)
  | some h2 =>
    rw [hb] at hrest
    rw [syncBody_ref h1 b j hud] at hb
    have hb2 : h2 = h1.set j (applyTransform (h1.getD j noEntity) b.state) :=
      (Option.some_injective _ hb).symm
    have hlen1 : h1.length = hp.length := syncAll_length xs hp h1 hxs
    have := syncAll_untouched ys h2 hp' j hys hrest
    rw [this, hb2, getD_set_self h1 j _ noEntity (hlen1 ▸ hj)]
    exact applyTransform_congr _ _ b.state (syncAll_nonTransform xs hp h1 hxs j)

/-- The instrumented enumeration computes the same store as `syncAll`. -/
theorem syncAllLog_snd (bs : List RigidBody) (hp : Heap) :
    (syncAllLog hp bs).2 = syncAll hp bs := by
  induction bs generalizing hp with
  | nil => rfl
  | cons b rest ih =>
    cases hb : syncBody hp b with
    | none => simp [syncAllLog, syncAll, hb]
    | some hp2 => simp [syncAllLog, syncAll, hb, ih hp2]

/-- On a non-faulting run, the `forEach` visits exactly the bodies of the
list, in enumeration order: each body once per occurrence. -/
theorem syncAllLog_fst (bs : List RigidBody) (hp hp' : Heap)
    (h : syncAll hp bs = some hp') : (syncAllLog hp bs).1 = bs := by
  induction bs generalizing hp with
  | nil => rfl
  | cons b rest ih =>
    simp only [syncAll] at h
    cases hb : syncBody hp b with
    | none => rw [hb] at h; exact absurd h (by simp)
    | some hp2 =>
      rw [hb] at h
      simp [syncAllLog, hb, ih hp2 h]

/-- Replacing engine states body-by-body keeps every `userData` slot. -/
theorem zipWith_setState_userData (bs : List RigidBody) (sts : List BodyState)
    (h : sts.length = bs.length) :
    (List.zipWith (fun b st => { b with state := st }) bs sts).map
        RigidBody.userData = bs.map RigidBody.userData := by
  induction bs generalizing sts with
  | nil => simp
  | cons b rest ih =>
    cases sts with
    | nil => simp at h
    | cons st sts2 =>
      simp only [List.zipWith, List.map, List.cons.injEq]
      exact ⟨trivial, ih sts2 (by simpa using h)⟩

/-- `world.step()` never writes any body's `userData` slot (the integrator
only replaces engine states; the hypothesis is that the external integrator
preserves the body count, as Rapier's does). -/
theorem step_userData (f : StepFn) (w : World)
    (hlen : (f w.gravity w.colliders (w.bodies.map RigidBody.state)).length
      = w.bodies.length) :
    (World.step f w).bodies.map RigidBody.userData
      = w.bodies.map RigidBody.userData := by
  simp only [World.step]
  exact zipWith_setState_userData _ _ (by simpa using hlen)

/-- Unfolding of `update()` on an initialized scene: step first, then the
copy loop over the post-step bodies. -/
theorem update_some (f : StepFn) (w : World) (hp : Heap) :
    Game.update f { rapierWorld := some w, heap := hp } =
      (syncAll hp (World.step f w).bodies).map
        (fun h2 => { rapierWorld := some (World.step f w), heap := h2 }) := rfl

/-- Inversion of a successful `update()` on an initialized scene. -/
theorem update_some_inv (f : StepFn) (w : World) (hp : Heap) (s' : GameScene)
    (h : Game.update f { rapierWorld := some w, heap := hp } = some s') :
    ∃ h2, syncAll hp (World.step f w).bodies = some h2 ∧
      s' = { rapierWorld := some (World.step f w), heap := h2 } := by
  rw [update_some] at h
  cases hs : syncAll hp (World.step f w).bodies with
  | none => rw [hs] at h; exact absurd h (by simp)
  | some h2 =>
    rw [hs] at h
    exact ⟨h2, rfl, (Option.some_injective _ h).symm⟩

/-- `create()` builds exactly the scene `sceneAt 0`. -/
theorem create_eq : Game.create = sceneAt 0 := by
  simp only [Game.create, sceneAt, worldAt, heapAt, createdColliders,
    logoBodyAt, textBody, backgroundObj, logoObj, textObj, addImage, addText,
    Entity.setAlpha, Entity.setOrigin, RigidBodyDesc.dynamic,
    RigidBodyDesc.fixed, RigidBodyDesc.setTranslation,
    RigidBodyDesc.setUserData, ColliderDesc.cuboid,
    ColliderDesc.setRestitution, World.createRigidBody, World.createCollider,
    fallY, fallVel]
  norm_num

/-- One step of the modelled integrator on the created world. -/
theorem step_worldAt (n : Nat) :
    World.step rapierFreeFall (worldAt n) = worldAt (n + 1) := by
  simp only [World.step, worldAt, rapierFreeFall, logoBodyAt, textBody,
    List.map, List.zipWith, fallY, fallVel, rapierDt]
  norm_num

/-- One frame update of the created scene after `n` updates. -/
theorem update_sceneAt (n : Nat) :
    Game.update rapierFreeFall (sceneAt n) = some (sceneAt (n + 1)) := by
  have h := update_some rapierFreeFall (worldAt n) (heapAt n)
  rw [step_worldAt] at h
  cases n with
  | zero =>
    rw [sceneAt, h]
    simp [worldAt, heapAt, syncAll, syncBody, jsTruthy, logoBodyAt, textBody,
      RigidBody.translation, RigidBody.rotation, List.getD, List.set,
      applyTransform, Entity.setRotation, sceneAt]
  | succ m =>
    rw [sceneAt, h]
    simp [worldAt, heapAt, syncAll, syncBody, jsTruthy, logoBodyAt, textBody,
      RigidBody.translation, RigidBody.rotation, List.getD, List.set,
      applyTransform, Entity.setRotation, sceneAt]

/-- `n` frame updates from the scene after `k` updates land at `n + k`. -/
theorem ticks_sceneAt (n k : Nat) :
    ticks rapierFreeFall n (sceneAt k) = some (sceneAt (n + k)) := by
  induction n generalizing k with
  | zero => simp [ticks]
  | succ m ih =>
    simp only [ticks, update_sceneAt, Option.some_bind]
    rw [ih (k + 1)]
    exact congrArg _ (congrArg sceneAt (by omega))

/-- The created scene after `n` frame updates, in closed form. -/
theorem ticks_create (n : Nat) :
    ticks rapierFreeFall n Game.create = some (sceneAt n) := by
  rw [create_eq]
  simpa using ticks_sceneAt n 0

/-- The logo game object's `y` after `n` updates is the free-fall value. -/
theorem logoYAfter_eq (n : Nat) : logoYAfter n = fallY n := by
  rw [logoYAfter, ticks_create]
  cases n with
  | zero => simp [sceneAt, heapAt, logoObj, addImage, List.getD, fallY]
  | succ m =>
    simp [sceneAt, heapAt, applyTransform, Entity.setRotation, List.getD,
      logoBodyAt]

/-- The text game object never moves. -/
theorem textPosAfter_eq (n : Nat) : textPosAfter n = (512, 584) := by
  rw [textPosAfter, ticks_create]
  cases n with
  | zero => simp [sceneAt, heapAt, textObj, addText, Entity.setOrigin, List.getD]
  | succ m =>
    simp [sceneAt, heapAt, applyTransform, Entity.setRotation, List.getD,
      textBody, textObj, addText, Entity.setOrigin]

/-- The falling body's downward velocity is never negative. -/
theorem fallVel_nonneg (n : Nat) : 0 ≤ fallVel n := by
  induction n with
  | zero => exact le_refl 0
  | succ m ih =>
    have : (0 : ℚ) < 981/100 * rapierDt := by norm_num [rapierDt]
    calc (0 : ℚ) ≤ fallVel m := ih
    _ ≤ fallVel m + 981/100 * rapierDt := le_add_of_nonneg_right this.le
    _ = fallVel (m + 1) := rfl

/-- During free fall the logo body's `y` strictly increases each step. -/
theorem fallY_lt_succ (n : Nat) : fallY n < fallY (n + 1) := by
  have h1 : (0 : ℚ) < (fallVel n + 981/100 * rapierDt) * rapierDt := by
    have h2 : (0 : ℚ) < fallVel n + 981/100 * rapierDt := by
      have := fallVel_nonneg n
      have h3 : (0 : ℚ) < 981/100 * rapierDt := by norm_num [rapierDt]
      linarith
    have h4 : (0 : ℚ) < rapierDt := by norm_num [rapierDt]
    positivity
  calc fallY n < fallY n + (fallVel n + 981/100 * rapierDt) * rapierDt := by
        linarith
  _ = fallY (n + 1) := rfl

/-! ## Claim theorems -/

/-- C1: after one `update()` on an initialized world, the game object
associated to a body carries the body's post-step `translation()` and
`rotation()`; in particular the value passed to `setRotation` is exactly the
value read from `rotation()` (one-to-one associations, as the data model
requires, are reflected by the hypothesis that no later body references the
same game object). -/
theorem C1_post_step_consistency (f : StepFn) (w : World) (hp : Heap)
    (s' : GameScene) (pre post : List RigidBody) (b : RigidBody) (j : Nat)
    (hup : Game.update f { rapierWorld := some w, heap := hp } = some s')
    (hbs : (World.step f w).bodies = pre ++ b :: post)
    (hud : b.userData = UserData.entityRef j)
    (hj : j < hp.length)
    (huniq : ∀ b' ∈ post, b'.userData ≠ UserData.entityRef j) :
    (s'.heap.getD j noEntity).x = b.translation.x ∧
    (s'.heap.getD j noEntity).y = b.translation.y ∧
    (s'.heap.getD j noEntity).rotation = b.rotation ∧
    s'.heap.getD j noEntity =
      Entity.setRotation
        { hp.getD j noEntity with x := b.translation.x, y := b.translation.y }
        b.rotation := by
  obtain ⟨h2, hsync, rfl⟩ := update_some_inv f w hp s' hup
  rw [hbs] at hsync
  have hlast := syncAll_getD_last pre post b hp h2 j hsync hud hj huniq
  refine ⟨?_, ?_, ?_, ?_⟩ <;> rw [hlast] <;>
    simp [applyTransform, Entity.setRotation, RigidBody.translation,
      RigidBody.rotation]

/-- Witness for C1 on the created scene: after the first tick the logo game
object's `y` equals the logo body's post-step translation `y`. -/
theorem C1_witness :
    ((sceneAt 1).heap.getD 1 noEntity).y = (logoBodyAt 1).translation.y := by
  have h := C1_post_step_consistency rapierFreeFall (worldAt 0) (heapAt 0)
    (sceneAt 1) [] [textBody] (logoBodyAt 1) 1 (update_sceneAt 0)
    (by rw [step_worldAt]; rfl) rfl (by decide) (by decide)
  exact h.2.1

/-- C2: calling `update()` while `rapierWorld` is still `undefined` is a
total no-op: no fault, no step, every game object unchanged. -/
theorem C2_noop_before_init (f : StepFn) (s : GameScene)
    (h : s.rapierWorld = none) : Game.update f s = some s := by
  cases s with
  | mk w hp =>
    simp only at h
    subst h
    rfl

/-- Witness for C2 at a concrete uninitialized scene. -/
theorem C2_witness :
    Game.update rapierFreeFall { rapierWorld := none, heap := [] } =
      some { rapierWorld := none, heap := [] } :=
  C2_noop_before_init rapierFreeFall { rapierWorld := none, heap := [] } rfl

/-- C3: within one `update()` on an initialized world, the step happens
strictly before any transform copy: the copy loop runs over the post-step
bodies, and the result depends only on the post-step world — two integrators
yielding the same post-step world yield the same update. -/
theorem C3_step_before_copy (f g : StepFn) (w w2 : World) (hp : Heap)
    (hpost : World.step f w = World.step g w2) :
    Game.update f { rapierWorld := some w, heap := hp } =
      (syncAll hp (World.step f w).bodies).map
        (fun h2 => { rapierWorld := some (World.step f w), heap := h2 }) ∧
    Game.update f { rapierWorld := some w, heap := hp } =
      Game.update g { rapierWorld := some w2, heap := hp } := by
  refine ⟨update_some f w hp, ?_⟩
  rw [update_some, update_some, hpost]

/-- Witness for C3 at the created scene. -/
theorem C3_witness :
    Game.update rapierFreeFall
        { rapierWorld := some (worldAt 0), heap := heapAt 0 } =
      (syncAll (heapAt 0) (World.step rapierFreeFall (worldAt 0)).bodies).map
        (fun h2 =>
          { rapierWorld := some (World.step rapierFreeFall (worldAt 0)),
            heap := h2 }) :=
  (C3_step_before_copy rapierFreeFall rapierFreeFall (worldAt 0) (worldAt 0)
    (heapAt 0) rfl).1

/-- C4: a body whose slot was never set (`userData` = `undefined`) does not
fault, has no transform-copy side effect (removing it from the enumeration
changes nothing), and on a non-faulting run the enumeration log shows each
body visited exactly once per occurrence. -/
theorem C4_unassociated_skip (hp : Heap) (l1 l2 : List RigidBody)
    (b : RigidBody) (hud : b.userData = UserData.undefined) :
    syncBody hp b = some hp ∧
    syncAll hp (l1 ++ b :: l2) = syncAll hp (l1 ++ l2) ∧
    (∀ h2, syncAll hp (l1 ++ b :: l2) = some h2 →
      (syncAllLog hp (l1 ++ b :: l2)).1 = l1 ++ b :: l2) := by
  have hskip : ∀ h0 : Heap, syncBody h0 b = some h0 := fun h0 =>
    syncBody_falsy h0 b (by simp [hud, jsTruthy])
  refine ⟨hskip hp, ?_, fun h2 hs => syncAllLog_fst _ hp h2 hs⟩
  rw [syncAll_append, syncAll_append]
  cases hpre : syncAll hp l1 with
  | none => rfl
  | some h1 =>
    simp only [Option.some_bind, syncAll, hskip h1]

/-- Witness for C4 with a concrete unassociated body. -/
theorem C4_witness :
    syncBody ([] : Heap)
        { userData := UserData.undefined, state := textBody.state } =
      some [] :=
  (C4_unassociated_skip [] [] []
    { userData := UserData.undefined, state := textBody.state } rfl).1

/-- C5: two successive `update()` calls apply exactly two composed steps:
after the second call the world is the twice-stepped world and the heap is
the result of two successive copy passes. -/
theorem C5_two_ticks_two_steps (f : StepFn) (w : World) (hp : Heap)
    (s1 s2 : GameScene)
    (h1 : Game.update f { rapierWorld := some w, heap := hp } = some s1)
    (h2 : Game.update f s1 = some s2) :
    s1.rapierWorld = some (World.step f w) ∧
    s2.rapierWorld = some (World.step f (World.step f w)) ∧
    syncAll hp (World.step f w).bodies = some s1.heap ∧
    syncAll s1.heap (World.step f (World.step f w)).bodies = some s2.heap := by
  obtain ⟨m1, hs1, rfl⟩ := update_some_inv f w hp s1 h1
  obtain ⟨m2, hs2, rfl⟩ := update_some_inv f (World.step f w) m1 s2 h2
  exact ⟨rfl, rfl, hs1, hs2⟩

/-- Witness for C5: after two ticks of the created scene the world is the
twice-stepped created world. -/
theorem C5_witness :
    (sceneAt 2).rapierWorld =
      some (World.step rapierFreeFall (World.step rapierFreeFall (worldAt 0))) :=
  (C5_two_ticks_two_steps rapierFreeFall (worldAt 0) (heapAt 0) (sceneAt 1)
    (sceneAt 2) (update_sceneAt 0) (update_sceneAt 1)).2.1

/-- C6: `update()` mutates only the position and rotation of game objects
referenced by some body: the world becomes exactly the once-stepped world,
no game object is created or destroyed, every non-transform display field of
every game object is unchanged, and every game object referenced by no body
is entirely unchanged. -/
theorem C6_frame_effect (f : StepFn) (w : World) (hp : Heap) (s' : GameScene)
    (hup : Game.update f { rapierWorld := some w, heap := hp } = some s') :
    s'.rapierWorld = some (World.step f w) ∧
    s'.heap.length = hp.length ∧
    (∀ j, nonTransform (s'.heap.getD j noEntity)
      = nonTransform (hp.getD j noEntity)) ∧
    (∀ j, (∀ b ∈ (World.step f w).bodies, b.userData ≠ UserData.entityRef j) →
      s'.heap.getD j noEntity = hp.getD j noEntity) := by
  obtain ⟨h2, hsync, rfl⟩ := update_some_inv f w hp s' hup
  exact ⟨rfl, syncAll_length _ hp h2 hsync,
    fun j => syncAll_nonTransform _ hp h2 hsync j,
    fun j hj => syncAll_untouched _ hp h2 j hj hsync⟩

/-- Witness for C6: the background game object (referenced by no body) keeps
its non-transform fields across the first tick of the created scene. -/
theorem C6_witness :
    nonTransform ((sceneAt 1).heap.getD 0 noEntity) =
      nonTransform ((heapAt 0).getD 0 noEntity) :=
  (C6_frame_effect rapierFreeFall (worldAt 0) (heapAt 0) (sceneAt 1)
    (update_sceneAt 0)).2.2.1 0

/-- C7: in the created scene (gravity `(0, 9.81)`, dynamic logo body at
`(512, 100)` with 64×64 cuboid and restitution 0.7, fixed text body at
`(512, 584)` with 200×40 cuboid), while no tick up to `n` has brought the
falling box into contact with the fixed platform (so no collision response
has altered its trajectory), `update()` never faults, the logo game object's
`y` strictly increases at every tick, and the text body's paired game object
shows zero position change across all `n` ticks. -/
theorem C7_scenario (n : Nat)
    (hfree : ∀ k, k ≤ n → fallY k + 32 < 564) :
    (ticks rapierFreeFall n Game.create).isSome = true ∧
    (∀ k, k ≤ n → logoYAfter k + 32 < 564) ∧
    (∀ k, k < n → logoYAfter k < logoYAfter (k + 1)) ∧
    (∀ k, k ≤ n → textPosAfter k = textPosAfter 0) := by
  refine ⟨by rw [ticks_create]; rfl, fun k hk => ?_, fun k _ => ?_,
    fun k _ => ?_⟩
  · rw [logoYAfter_eq]
    exact hfree k hk
  · rw [logoYAfter_eq, logoYAfter_eq]
    exact fallY_lt_succ k
  · rw [textPosAfter_eq, textPosAfter_eq]

/-- Witness for C7 at `n = 2`. -/
theorem C7_witness :
    logoYAfter 0 < logoYAfter 1 ∧ textPosAfter 2 = textPosAfter 0 := by
  have h : ∀ k, k ≤ 2 → fallY k + 32 < 564 := by
    intro k hk
    interval_cases k <;> norm_num [fallY, fallVel, rapierDt]
  exact ⟨(C7_scenario 2 h).2.2.1 0 (by omega),
    (C7_scenario 2 h).2.2.2 2 (le_refl 2)⟩

/-- C8: associations are established at body-creation time (`create()`
stores the logo and text references while building its two bodies) and never
written afterwards: `update()` leaves every body's `userData` slot exactly
as it was (the hypothesis is that the external integrator preserves the body
count, as Rapier's `step()` does). -/
theorem C8_associations_immutable (f : StepFn) (w : World) (hp : Heap)
    (s' : GameScene)
    (hlen : (f w.gravity w.colliders (w.bodies.map RigidBody.state)).length
      = w.bodies.length)
    (hup : Game.update f { rapierWorld := some w, heap := hp } = some s') :
    worldUserData s' = worldUserData { rapierWorld := some w, heap := hp } ∧
    worldUserData Game.create =
      [UserData.entityRef 1, UserData.entityRef 2] := by
  obtain ⟨h2, hsync, rfl⟩ := update_some_inv f w hp s' hup
  constructor
  · simpa [worldUserData] using step_userData f w hlen
  · rfl

/-- Witness for C8: one tick of the created scene keeps both slots. -/
theorem C8_witness :
    worldUserData (sceneAt 1) =
      worldUserData { rapierWorld := some (worldAt 0), heap := heapAt 0 } :=
  (C8_associations_immutable rapierFreeFall (worldAt 0) (heapAt 0) (sceneAt 1)
    rfl (update_sceneAt 0)).1

/-- C9: the association check is a truthiness test: every falsy slot value
(`undefined`, `null`, `0`, the empty string, `false`) is skipped silently,
exactly as if the slot had never been set. -/
theorem C9_truthiness_skip (hp : Heap) (st : BodyState) (u : UserData)
    (hu : u = UserData.undefined ∨ u = UserData.null ∨
      u = UserData.numVal 0 ∨ u = UserData.strVal "" ∨
      u = UserData.boolVal false) :
    jsTruthy u = false ∧
    syncBody hp { userData := u, state := st } = some hp ∧
    syncBody hp { userData := u, state := st } =
      syncBody hp { userData := UserData.undefined, state := st } := by
  have hf : jsTruthy u = false := by
    rcases hu with rfl | rfl | rfl | rfl | rfl <;> simp [jsTruthy]
  refine ⟨hf, syncBody_falsy hp _ hf, ?_⟩
  rw [syncBody_falsy hp _ hf, syncBody_falsy hp _ (by simp [jsTruthy])]

/-- Witness for C9 with the slot holding the number `0`. -/
theorem C9_witness :
    syncBody ([] : Heap)
        { userData := UserData.numVal 0, state := textBody.state } =
      some [] :=
  (C9_truthiness_skip [] textBody.state (UserData.numVal 0)
    (Or.inr (Or.inr (Or.inl rfl)))).2.1

/-- C10: `update()` does not enforce one-to-one associations: when two
distinct bodies reference the same game object, each performs its transform
copy (the earlier body's write is visible right after it is processed), and
after the call the game object carries the transform of the body enumerated
last among those referencing it. -/
theorem C10_last_write_wins (f : StepFn) (w : World) (hp : Heap)
    (s' : GameScene) (pre mid post : List RigidBody) (b1 b2 : RigidBody)
    (e : Nat)
    (hup : Game.update f { rapierWorld := some w, heap := hp } = some s')
    (hbs : (World.step f w).bodies = pre ++ b1 :: (mid ++ b2 :: post))
    (h1 : b1.userData = UserData.entityRef e)
    (h2 : b2.userData = UserData.entityRef e)
    (hpost : ∀ b' ∈ post, b'.userData ≠ UserData.entityRef e)
    (he : e < hp.length) :
    s'.heap.getD e noEntity = applyTransform (hp.getD e noEntity) b2.state ∧
    (∃ hpre hmid, syncAll hp pre = some hpre ∧
      syncBody hpre b1 = some hmid ∧
      hmid.getD e noEntity = applyTransform (hp.getD e noEntity) b1.state) := by
  obtain ⟨hfin, hsync, rfl⟩ := update_some_inv f w hp s' hup
  rw [hbs] at hsync
  constructor
  · have hre : pre ++ b1 :: (mid ++ b2 :: post)
        = (pre ++ b1 :: mid) ++ b2 :: post := by
      simp
    rw [hre] at hsync
    exact syncAll_getD_last (pre ++ b1 :: mid) post b2 hp hfin e hsync h2 he
      hpost
  · obtain ⟨hpre, hsp, hrest⟩ :=
      syncAll_append_some hp hfin pre (b1 :: (mid ++ b2 :: post)) hsync
    simp only [syncAll] at hrest
    cases hb : syncBody hpre b1 with
    | none => rw [hb] at hrest; exact absurd hrest (by simp)
    | some hmid =>
      refine ⟨hpre, hmid, hsp, hb, ?_⟩
      rw [syncBody_ref hpre b1 e h1] at hb
      have hm : hmid
          = hpre.set e (applyTransform (hpre.getD e noEntity) b1.state) :=
        (Option.some_injective _ hb).symm
      have helen : e < hpre.length := by
        rw [syncAll_length pre hp hpre hsp]
        exact he
      rw [hm, getD_set_self hpre e _ noEntity helen]
      exact applyTransform_congr _ _ b1.state
        (syncAll_nonTransform pre hp hpre hsp e)

/-- Witness for C10: two test bodies sharing game object 0; after one tick
the object carries the second body's transform. -/
theorem C10_witness :
    dupResult.heap.getD 0 noEntity =
      applyTransform (([noEntity] : Heap).getD 0 noEntity) dupBodyB.state :=
  (C10_last_write_wins idleStep dupWorld [noEntity] dupResult [] [] []
    dupBodyA dupBodyB 0 rfl rfl rfl rfl (by simp) (by decide)).1

end RapierTemplate
